import Mathlib

/-!
Shallow embedding of `src/processor.py` (class `DataProcessor`), a batch
pipeline: fetch with fallback → pandas transform → groupby aggregation →
analysis report → CSV/JSON persistence.

Modelling conventions:
* Python / pandas missing values are modelled with `Option`: a raw field
  that is `none` is a JSON null, and a derived numeric column entry that is
  `none` is pandas `NaN`.
* Raw records always carry the four keys `id`, `title`, `body`, `userId`
  (possibly with null values), in that key order, as produced both by the
  mock generator and by the documented remote endpoint. Hence the DataFrame
  built from a nonempty record list has exactly the columns
  `id, title, body, userId` in that order, while `pd.DataFrame` of the
  empty list yields a frame with no columns at all.
* Python floats are modelled as exact rationals; `round(x, 2)` and
  `DataFrame.round(2)` are modelled as exact round-half-to-even at two
  decimal places, numpy's rounding rule, abstracting binary-float
  representation error.
* `userId` is the field the spec calls `groupId`.
-/

/-- Python exception kinds raised by the modelled code paths. -/
inductive PyError where
  | keyError
  | typeError
  | valueError
deriving DecidableEq, Repr

/-- A raw record as fetched: the four JSON fields; `none` is a JSON null. -/
structure RawRecord where
  id : Int
  title : Option String
  body : Option String
  userId : Int
deriving DecidableEq, Repr

/-- A row of the processed DataFrame: the raw fields plus the
`processed_at`, `title_length` and `body_word_count` columns added by
`process_data`; `none` in a derived column is pandas `NaN`. -/
structure DerivedRecord where
  id : Int
  title : Option String
  body : Option String
  userId : Int
  processed_at : String
  title_length : Option Nat
  body_word_count : Option Nat
deriving DecidableEq, Repr

/-- Helper for `pyTokens`: scan the characters, accumulating the current
token (reversed); whitespace closes the token, empty tokens are dropped. -/
def splitWsAux : List Char → List Char → List String
  | [], acc => if acc = [] then [] else [String.mk acc.reverse]
  | c :: cs, acc =>
    if c.isWhitespace then
      if acc = [] then splitWsAux cs []
      else String.mk acc.reverse :: splitWsAux cs []
    else splitWsAux cs (c :: acc)

/-- Python `s.split()` with no argument: runs of whitespace delimit
tokens, with no empty tokens. -/
def pyTokens (s : String) : List String :=
  splitWsAux s.data []

/-- The per-row effect of the column operations of `process_data`
(`processor.py` lines 84-88): `df['processed_at'] = ts`;
`df['title_length'] = df['title'].str.len()`, which is `NaN` on a null
title; `df['body_word_count'] = df['body'].str.split().str.len()`, which is
`NaN` on a null body. -/
def deriveRecord (ts : String) (r : RawRecord) : DerivedRecord :=
  { id := r.id
    title := r.title
    body := r.body
    userId := r.userId
    processed_at := ts
    title_length := r.title.map String.length
    body_word_count := r.body.map (fun b => (pyTokens b).length) }

/-- `process_data` (lines 76-110). On the empty input list
`pd.DataFrame([])` has no columns, so `df['title']` raises `KeyError`;
otherwise the column operations are an elementwise map over the rows. The
groupby statistics computed inside `process_data` are only logged; the
method returns the DataFrame. -/
def process_data (ts : String) (raw : List RawRecord) :
    Except PyError (List DerivedRecord) :=
  if raw.isEmpty then .error .keyError
  else .ok (raw.map (deriveRecord ts))

/-- The group keys of `df.groupby('userId')`: the distinct `userId` values
in ascending order (pandas sorts group keys by default). -/
def groupIds (records : List DerivedRecord) : List Int :=
  List.insertionSort (fun a b => a ≤ b) ((records.map (fun r => r.userId)).dedup)

/-- The rows of one `userId` group, in frame order. -/
def groupRecords (records : List DerivedRecord) (g : Int) : List DerivedRecord :=
  records.filter (fun r => r.userId = g)

/-- One row of `groupby('userId').agg(...)` under the aggregation spec
used at lines 91-95 and 131-135: `id` is counted, `title_length` averaged,
`body_word_count` summed. `idCount` counts non-null ids (ids are always
present, so it is the group size); the mean is over the non-`NaN` title
lengths and is itself `NaN` (`none`) when all are null; the sum skips
`NaN` entries (`0` when all are null). -/
structure AggRow where
  idCount : Nat
  title_length_mean : Option ℚ
  body_word_count_sum : Nat
deriving DecidableEq, Repr

/-- Round a rational to the nearest integer, ties to even: numpy's
rounding rule, used by `DataFrame.round`. -/
def roundHalfEven (q : ℚ) : Int :=
  let f : Int := ⌊q⌋
  let frac : ℚ := q - (f : ℚ)
  if frac < 1/2 then f
  else if 1/2 < frac then f + 1
  else if f % 2 = 0 then f else f + 1

/-- `DataFrame.round(2)`: round-half-to-even at two decimal places,
modelled exactly on rationals. -/
def round2 (q : ℚ) : ℚ :=
  ((roundHalfEven (q * 100) : Int) : ℚ) / 100

/-- The aggregate row of one group after `.round(2)` (lines 131-135):
count of ids, rounded mean of title lengths, summed word counts. -/
def aggRow (records : List DerivedRecord) (g : Int) : AggRow :=
  let grp : List DerivedRecord := groupRecords records g
  let titles : List Nat := grp.filterMap (fun r => r.title_length)
  let words : List Nat := grp.filterMap (fun r => r.body_word_count)
  { idCount := grp.length
    title_length_mean :=
      if titles.length = 0 then none
      else some (round2 ((titles.map (fun n => (n : ℚ))).sum / (titles.length : ℚ)))
    body_word_count_sum := words.sum }

/-- The `user_breakdown` member of the analysis (lines 131-135): the
rounded per-group aggregate as an ordered mapping, one row per distinct
`userId`, keys ascending (`to_dict('index')` keeps the sorted groupby
order). -/
def user_breakdown (records : List DerivedRecord) : List (Int × AggRow) :=
  (groupIds records).map (fun g => (g, aggRow records g))

/-- The `data_summary` member of the analysis (lines 123-130). -/
structure DataSummary where
  total_records : Nat
  unique_users : Nat
  avg_title_length : ℚ
  total_words : Nat
  min_title_length : Nat
  max_title_length : Nat
deriving DecidableEq, Repr

/-- The analysis dict built by `perform_analysis`, restricted to its
`data_summary` and `user_breakdown` members; the `execution_info` member
holds only run metadata (two strings, a flag and the run-specific
timestamp) and is carried unchanged from configuration. -/
structure Analysis where
  data_summary : DataSummary
  user_breakdown : List (Int × AggRow)
deriving DecidableEq, Repr

/-- `perform_analysis` (lines 112-138): summary statistics computed
directly from the frame columns plus the per-group breakdown.
`float(df['title_length'].mean())` is the unrounded mean of the non-`NaN`
title lengths; `int(df['title_length'].min())` raises `ValueError` when
the min is `NaN` (that is, when no non-null title length exists), and
likewise for the max. -/
def perform_analysis (records : List DerivedRecord) :
    Except PyError Analysis :=
  let titles : List Nat := records.filterMap (fun r => r.title_length)
  let words : List Nat := records.filterMap (fun r => r.body_word_count)
  match titles.min?, titles.max? with
  | some mn, some mx =>
    .ok { data_summary :=
            { total_records := records.length
              unique_users := (records.map (fun r => r.userId)).dedup.length
              avg_title_length :=
                (titles.map (fun n => (n : ℚ))).sum / (titles.length : ℚ)
              total_words := words.sum
              min_title_length := mn
              max_title_length := mx }
          user_breakdown := user_breakdown records }
  | _, _ => .error .valueError

/-- `_generate_mock_data` (lines 61-74): ten templated records with
`id = i + 1` and `userId = i % 3 + 1` for `i` in `range(10)`. -/
def generate_mock_data : List RawRecord :=
  (List.range 10).map (fun i =>
    { id := (i : Int) + 1
      title := some ("Sample Data Entry " ++ toString (i + 1))
      body := some ("This is mock data entry number " ++ toString (i + 1))
      userId := (i : Int) % 3 + 1 })

/-- The three raw records of the spec's example scenario. -/
def exampleRaw : List RawRecord :=
  [{ id := 1, title := some ("AB"), body := some ("a b c"), userId := 1 },
   { id := 2, title := some ("CDE"), body := some ("d e"), userId := 1 },
   { id := 3, title := some ("F"), body := some ("g"), userId := 2 }]

/-- The example records after the transform step (the shared batch
timestamp is irrelevant to the statistics). -/
def exampleDerived : List DerivedRecord :=
  exampleRaw.map (deriveRecord ("T"))

/-- A Python value, as relevant to the modelled paths. `nan` is
`float('nan')`. Note that Lean's propositional equality identifies `nan`
with itself, unlike Python where `nan != nan`; the theorems below
therefore never rely on comparing `nan` values. Dict entries are kept in
insertion order, as Python dicts do. -/
inductive PyValue where
  | int (n : Int)
  | float (q : ℚ)
  | nan
  | str (s : String)
  | bool (b : Bool)
  | none
  | list (xs : List PyValue)
  | dict (entries : List (PyValue × PyValue))
deriving Repr

/-- A JSON document, as written by `json.dump`, up to concrete whitespace:
object member order is kept. `nanLit` is Python's non-standard `NaN` token
(`allow_nan` defaults to true). Numbers keep the int/float distinction,
because `json.dump` writes a Python int without a decimal point and a
float with one, and `json.load` parses them back accordingly. -/
inductive Json where
  | intNum (n : Int)
  | floatNum (q : ℚ)
  | nanLit
  | str (s : String)
  | bool (b : Bool)
  | null
  | arr (xs : List Json)
  | obj (members : List (String × Json))
deriving Repr

/-- How `json.dump` turns a dict key into a JSON object key: string keys
pass through, int keys become their decimal form, bool and None keys their
JSON literals; container keys raise `TypeError` (`none` here). Float keys,
which Python would coerce via its float repr, do not occur in this program
and are grouped with the failing cases. -/
def jsonKey : PyValue → Option String
  | .str s => some s
  | .int n => some (toString n)
  | .bool b => some (if b then ("true") else ("false"))
  | .none => some ("null")
  | _ => Option.none

mutual

/-- `json.dump` (`save_results` line 156), as the document it writes:
`none` is the `TypeError` raised on an unserializable dict key. -/
def dumps : PyValue → Option Json
  | .int n => some (.intNum n)
  | .float q => some (.floatNum q)
  | .nan => some .nanLit
  | .str s => some (.str s)
  | .bool b => some (.bool b)
  | .none => some .null
  | .list xs => (dumpsArr xs).map Json.arr
  | .dict es => (dumpsObj es).map Json.obj

/-- `dumps` element-wise on a Python list. -/
def dumpsArr : List PyValue → Option (List Json)
  | [] => some []
  | x :: xs => do
    let j ← dumps x
    let js ← dumpsArr xs
    some (j :: js)

/-- `dumps` member-wise on a Python dict, coercing keys to strings. -/
def dumpsObj : List (PyValue × PyValue) → Option (List (String × Json))
  | [] => some []
  | (k, v) :: es => do
    let ks ← jsonKey k
    let jv ← dumps v
    let ms ← dumpsObj es
    some ((ks, jv) :: ms)

end

mutual

/-- `json.load` of a document: objects become dicts whose keys are
strings. -/
def loads : Json → PyValue
  | .intNum n => .int n
  | .floatNum q => .float q
  | .nanLit => .nan
  | .str s => .str s
  | .bool b => .bool b
  | .null => .none
  | .arr js => .list (loadsArr js)
  | .obj ms => .dict (loadsObj ms)

/-- `loads` element-wise on a JSON array. -/
def loadsArr : List Json → List PyValue
  | [] => []
  | j :: js => loads j :: loadsArr js

/-- `loads` member-wise on a JSON object. -/
def loadsObj : List (String × Json) → List (PyValue × PyValue)
  | [] => []
  | (k, v) :: ms => (.str k, loads v) :: loadsObj ms

end

/-- One row of `user_breakdown` as the Python dict produced by
`to_dict('index')` in the NaN-free case: the count and sum columns stay
integers and the rounded mean is a float; a `NaN` mean (all titles null in
the group) is `float('nan')`. (When a derived column contains `NaN`,
pandas promotes the whole column to float; that dtype promotion of the
integer columns is abstracted, and the theorems below that compare
documents assume NaN-free groups.) Current pandas boxes `to_dict` output,
keys included, to native Python types. -/
def pyOfAggRow (row : AggRow) : PyValue :=
  .dict [(.str ("id"), .int row.idCount),
         (.str ("title_length"),
           match row.title_length_mean with
           | some q => .float q
           | Option.none => .nan),
         (.str ("body_word_count"), .int row.body_word_count_sum)]

/-- The `data_summary` member as a Python dict (lines 123-130): four ints
and one float. -/
def pyOfSummary (s : DataSummary) : PyValue :=
  .dict [(.str ("total_records"), .int s.total_records),
         (.str ("unique_users"), .int s.unique_users),
         (.str ("avg_title_length"), .float s.avg_title_length),
         (.str ("total_words"), .int s.total_words),
         (.str ("min_title_length"), .int s.min_title_length),
         (.str ("max_title_length"), .int s.max_title_length)]

/-- The in-memory analysis dict (lines 116-136) restricted to its
`data_summary` and `user_breakdown` members; `execution_info` is run
metadata (strings and a flag, including the run-specific timestamp that
the round-trip claim excludes). The breakdown keys are the Python ints
coming from the `userId` index of `to_dict('index')`. -/
def pyOfAnalysis (a : Analysis) : PyValue :=
  .dict [(.str ("data_summary"), pyOfSummary a.data_summary),
         (.str ("user_breakdown"),
           .dict (a.user_breakdown.map
             (fun e => ((.int e.1 : PyValue), pyOfAggRow e.2))))]

/-- What deserializing the persisted document yields: the same summary and
row values, but every breakdown key replaced by its decimal string form,
because JSON object keys are strings. -/
def pyOfAnalysisLoaded (a : Analysis) : PyValue :=
  .dict [(.str ("data_summary"), pyOfSummary a.data_summary),
         (.str ("user_breakdown"),
           .dict (a.user_breakdown.map
             (fun e => ((.str (toString e.1) : PyValue), pyOfAggRow e.2))))]

/-- Outcome of the single `requests.get` call in `fetch_sample_data`
(lines 44-59). `requestFailure` stands for any raised
`requests.RequestException`: connection and timeout errors, the
`HTTPError` from `raise_for_status()` on a non-2xx status, and, with
current `requests` (2.27+), the `JSONDecodeError` from an unparseable
body — exactly what the `except requests.RequestException` clause
catches. `success payload` is a 2xx response whose body parsed as the
JSON value `payload`. -/
inductive FetchOutcome where
  | requestFailure
  | success (payload : PyValue)

/-- Python slicing `x[:10]` as applied at line 52: defined on sequences
(list, str); on dict, int, float, bool or None it raises `TypeError`. -/
def pySlice10 : PyValue → Except PyError PyValue
  | .list xs => .ok (.list (xs.take 10))
  | .str s => .ok (.str (s.take 10))
  | _ => .error .typeError

/-- A raw record as the Python dict the data source hands over. -/
def pyOfRawRecord (r : RawRecord) : PyValue :=
  .dict [(.str ("id"), .int r.id),
         (.str ("title"), r.title.elim .none .str),
         (.str ("body"), r.body.elim .none .str),
         (.str ("userId"), .int r.userId)]

/-- `fetch_sample_data` (lines 40-59): any `requests.RequestException`
is caught and replaced by the mock fallback; on success the method
returns `response.json()[:10]`, whose slice raises `TypeError` when the
payload is not a sequence. -/
def fetch_sample_data (o : FetchOutcome) : Except PyError PyValue :=
  match o with
  | .requestFailure => .ok (.list (generate_mock_data.map pyOfRawRecord))
  | .success payload => pySlice10 payload

/-- A field needs quoting under the csv module's default QUOTE_MINIMAL
rule used by `DataFrame.to_csv`: it contains the delimiter, the quote
character, or a line-terminator character. -/
def csvNeedsQuoting (s : String) : Bool :=
  s.data.any (fun c => c = ',' ∨ c = '"' ∨ c = '\n' ∨ c = '\r')

/-- Double every quote character, writing a quoted CSV field body. -/
def escapeQuotes : List Char → List Char
  | [] => []
  | c :: cs =>
    if c = '"' then '"' :: '"' :: escapeQuotes cs
    else c :: escapeQuotes cs

/-- Undo `escapeQuotes`: collapse doubled quote characters. -/
def unescapeQuotes : List Char → List Char
  | [] => []
  | [c] => [c]
  | c :: d :: cs =>
    if c = '"' ∧ d = '"' then '"' :: unescapeQuotes cs
    else c :: unescapeQuotes (d :: cs)

/-- Render one CSV field with minimal quoting: wrap in quotes, doubling
embedded quotes, exactly when the field contains a special character. -/
def renderCsvField (s : String) : String :=
  if csvNeedsQuoting s then String.mk ('"' :: (escapeQuotes s.data ++ ['"']))
  else s

/-- Read one rendered field back: strip the outer quotes and collapse
doubled quotes when the field was quoted. -/
def parseCsvField (s : String) : String :=
  if s.data.head? = some '"' then String.mk (unescapeQuotes s.data.tail.dropLast)
  else s

/-- The column order of the processed DataFrame: the raw-record key order
(`id, title, body, userId`) followed by the three added columns in
insertion order. This is the header `df.to_csv` writes. -/
def csvColumns : List String :=
  [("id"), ("title"), ("body"), ("userId"),
   ("processed_at"), ("title_length"), ("body_word_count")]

/-- One record's CSV fields, in column order. Missing values (`NaN`) are
written as empty fields; numeric formatting keeps the integer form of the
NaN-free case (pandas' float promotion of a column containing `NaN` is
abstracted). -/
def csvRecordFields (r : DerivedRecord) : List String :=
  [toString r.id,
   r.title.getD (""),
   r.body.getD (""),
   toString r.userId,
   r.processed_at,
   (r.title_length.map toString).getD (""),
   (r.body_word_count.map toString).getD ("")]

/-- One CSV line: comma-joined minimally-quoted fields. -/
def csvLine (fields : List String) : String :=
  String.intercalate (",") (fields.map renderCsvField)

/-- The lines written by `df.to_csv(csv_path, index=False)` (line 150):
the header row, then one row per record in frame order. -/
def to_csv (records : List DerivedRecord) : List String :=
  csvLine csvColumns :: records.map (fun r => csvLine (csvRecordFields r))

/-- The fixed output directory of `save_results` (line 145). -/
def output_dir : String := "/tmp/cronjob_output"

/-- The two artifacts `save_results` writes, keyed by their paths. -/
structure SavedFiles where
  csv_path : String
  csv_lines : List String
  json_path : String
  json_doc : Json
deriving Repr

/-- `save_results` (lines 140-162): writes the CSV dataset and the
analysis document to paths derived from the execution uuid. A dict the
json module cannot serialize would raise `TypeError` (after the CSV file
is already on disk; that partial artifact is not modelled). -/
def save_results (uuid : String) (records : List DerivedRecord)
    (a : Analysis) : Except PyError SavedFiles :=
  match dumps (pyOfAnalysis a) with
  | some doc =>
    .ok { csv_path := output_dir ++ "/processed_data_" ++ uuid ++ ".csv"
          csv_lines := to_csv records
          json_path := output_dir ++ "/analysis_" ++ uuid ++ ".json"
          json_doc := doc }
  | Option.none => .error .typeError

/-- A JSON-null-or-string field value of a fetched record. -/
def pyStrOpt : PyValue → Option (Option String)
  | .str s => some (some s)
  | .none => some Option.none
  | _ => Option.none

/-- Interpreting a fetched payload as the rows `pd.DataFrame` is built
from: a Python list of dicts carrying the four record keys in order,
with null-or-string `title` and `body`. Any other shape (`none` here)
makes a later pipeline stage raise; that error is abstracted into the
top-level failure of `run`. -/
def asRawRecords : PyValue → Option (List RawRecord)
  | .list xs => xs.mapM (fun v =>
      match v with
      | .dict [(.str k1, .int i), (.str k2, t), (.str k3, b), (.str k4, .int u)] =>
        if k1 = "id" ∧ k2 = "title" ∧ k3 = "body" ∧ k4 = "userId" then
          match pyStrOpt t, pyStrOpt b with
          | some tf, some bf =>
            some { id := i, title := tf, body := bf, userId := u }
          | _, _ => Option.none
        else Option.none
      | _ => Option.none)
  | _ => Option.none

/-- `run` (lines 181-214): the five stages under the top-level
try/except. Any uncaught exception is logged and converted to exit code
1; an exception raised before `save_results` means no output files are
produced. (`simulate_work` and the timing log have no semantic output
and are omitted.) -/
def run (uuid ts : String) (o : FetchOutcome) : Nat × Option SavedFiles :=
  match fetch_sample_data o with
  | .error _ => (1, Option.none)
  | .ok payload =>
    match asRawRecords payload with
    | Option.none => (1, Option.none)
    | some raw =>
      match process_data ts raw with
      | .error _ => (1, Option.none)
      | .ok records =>
        match perform_analysis records with
        | .error _ => (1, Option.none)
        | .ok a =>
          match save_results uuid records a with
          | .error _ => (1, Option.none)
          | .ok files => (0, some files)

/-- C1 (amended): for present (non-null) fields, `title_length` is the
character count of `title` and `body_word_count` is the number of
whitespace-delimited tokens of `body`; but an absent or null `title` or
`body` yields a missing derived value (pandas `NaN`), not `0` — the
empty-string fallback claimed by the spec does not exist in the code
(the transform still does not fail on a null field). -/
theorem C1_title_body_derivation (ts : String) (r : RawRecord) :
    (∀ s, r.title = some s → (deriveRecord ts r).title_length = some s.length) ∧
    (∀ b, r.body = some b →
      (deriveRecord ts r).body_word_count = some (pyTokens b).length) ∧
    (r.title = Option.none → (deriveRecord ts r).title_length = Option.none) ∧
    (r.body = Option.none → (deriveRecord ts r).body_word_count = Option.none) := by
  constructor
  · intro s hs; simp [deriveRecord, hs]
  constructor
  · intro b hb; simp [deriveRecord, hb]
  constructor
  · intro h; simp [deriveRecord, h]
  · intro h; simp [deriveRecord, h]

/-- C1 witness: the derivation rules evaluated on a concrete record. -/
theorem C1_title_body_derivation_witness :
    (deriveRecord ("T")
        { id := 1, title := some ("AB"), body := some ("a b c"), userId := 1 }).title_length
      = some (String.length ("AB")) ∧
    (deriveRecord ("T")
        { id := 1, title := some ("AB"), body := some ("a b c"), userId := 1 }).body_word_count
      = some (pyTokens ("a b c")).length ∧
    String.length ("AB") = 2 ∧ (pyTokens ("a b c")).length = 3 := by
  refine ⟨(C1_title_body_derivation ("T") _).1 ("AB") rfl,
          (C1_title_body_derivation ("T") _).2.1 ("a b c") rfl, rfl, ?_⟩
  decide

/-- C1 counterexample: a record whose `title` is JSON null. The claim says
`titleLength` is then `0`; `df['title'].str.len()` instead yields `NaN`
(`none`), so the derived value is not `0`. -/
theorem C1_counterexample :
    (deriveRecord ("T")
        { id := 1, title := Option.none, body := some ("x"), userId := 1 }).title_length
      = Option.none ∧
    ¬ (deriveRecord ("T")
        { id := 1, title := Option.none, body := some ("x"), userId := 1 }).title_length
      = some 0 := by
  exact ⟨rfl, by decide⟩

/-- C3 (amended): for every nonempty input list the transform step is a
pure order-preserving map — one derived record per input record, the i-th
output derived from the i-th input; the empty list instead raises
`KeyError` (no `title` column on a DataFrame built from `[]`). -/
theorem C3_transform_map (ts : String) (raw : List RawRecord) (h : raw ≠ []) :
    process_data ts raw = Except.ok (raw.map (deriveRecord ts)) ∧
    (raw.map (deriveRecord ts)).length = raw.length ∧
    ∀ i (hi : i < raw.length),
      (raw.map (deriveRecord ts)).get ⟨i, by simpa using hi⟩
        = deriveRecord ts (raw.get ⟨i, hi⟩) := by
  refine ⟨?_, by simp, ?_⟩
  · simp [process_data, h]
  · intro i hi
    simp

/-- C3 witness: the transform evaluated on the example records. -/
theorem C3_transform_map_witness :
    process_data ("T") exampleRaw = Except.ok (exampleRaw.map (deriveRecord ("T"))) ∧
    (exampleRaw.map (deriveRecord ("T"))).length = exampleRaw.length :=
  ⟨(C3_transform_map ("T") exampleRaw (by simp [exampleRaw])).1,
   (C3_transform_map ("T") exampleRaw (by simp [exampleRaw])).2.1⟩

/-- C3 counterexample: on the empty input list the transform raises
`KeyError` instead of returning an empty derived collection, so the
universally-quantified length property fails at `[]`. -/
theorem C3_counterexample :
    process_data ("T") [] = Except.error PyError.keyError := rfl

/-- C6 (amended): every `requests.RequestException` — timeout, transport
error, non-2xx status, unparseable body — is absorbed by the mock
fallback, and an array payload yields its first ten elements; but a
successful response whose valid-JSON payload is not a sequence raises an
uncaught `TypeError` (and a string payload is sliced to a string, not a
record list), so structurally malformed payloads are not absorbed. -/
theorem C6_fetch_behaviour :
    fetch_sample_data FetchOutcome.requestFailure
        = Except.ok (PyValue.list (generate_mock_data.map pyOfRawRecord)) ∧
    (∀ xs, fetch_sample_data (FetchOutcome.success (PyValue.list xs))
        = Except.ok (PyValue.list (xs.take 10))) ∧
    (∀ es, fetch_sample_data (FetchOutcome.success (PyValue.dict es))
        = Except.error PyError.typeError) ∧
    (∀ s, fetch_sample_data (FetchOutcome.success (PyValue.str s))
        = Except.ok (PyValue.str (s.take 10))) :=
  ⟨rfl, fun _ => rfl, fun _ => rfl, fun _ => rfl⟩

/-- C6 counterexample: a 2xx response whose body is the JSON object
`{}` — valid JSON, malformed for this pipeline. `response.json()[:10]`
raises `TypeError`, which the `except requests.RequestException` clause
does not catch, so the fetch fails outward instead of returning records. -/
theorem C6_counterexample :
    fetch_sample_data (FetchOutcome.success (PyValue.dict []))
      = Except.error PyError.typeError := rfl

/-- C7: the fallback generator is deterministic — exactly ten records,
ids sequential from 1, and `userId` (the spec's `groupId`) following
`(i mod 3) + 1`, the cycle 1,2,3,1,2,3,1,2,3,1. -/
theorem C7_mock_determinism :
    generate_mock_data.length = 10 ∧
    generate_mock_data.map (fun r => r.id) = [1, 2, 3, 4, 5, 6, 7, 8, 9, 10] ∧
    generate_mock_data.map (fun r => r.userId) = [1, 2, 3, 1, 2, 3, 1, 2, 3, 1] :=
  ⟨rfl, rfl, rfl⟩

/-- C10: on an empty dataset the transform raises `KeyError` (the `title`
column does not exist on a DataFrame built from an empty list); the
exception propagates to the top-level try/except of `run`, so no output
files are produced and the run returns exit code 1. -/
theorem C10_empty_input :
    process_data ("T") ([] : List RawRecord) = Except.error PyError.keyError ∧
    run ("U") ("T") (FetchOutcome.success (PyValue.list [])) = (1, Option.none) :=
  ⟨rfl, rfl⟩

/-- C2: the aggregation is a partition by `userId` (the spec's
`groupId`): the per-group counts sum to the number of records, and the
group keys are exactly the `userId` values occurring in the records — no
missing and no extra groups. -/
theorem C2_aggregation_partition (records : List DerivedRecord) :
    ((groupIds records).map (fun g => (aggRow records g).idCount)).sum
        = records.length ∧
    ∀ g : Int, g ∈ groupIds records ↔ g ∈ records.map (fun r => r.userId) := by
  have hcount : ∀ g : Int,
      (aggRow records g).idCount
        = (records.map (fun r => r.userId)).count g := by
    intro g
    show (groupRecords records g).length = _
    rw [groupRecords, List.count_eq_countP, List.countP_map,
        ← List.countP_eq_length_filter]
    exact List.countP_congr (fun r _ => by simp [Function.comp])
  constructor
  · calc ((groupIds records).map (fun g => (aggRow records g).idCount)).sum
        = ((groupIds records).map
            (fun g => (records.map (fun r => r.userId)).count g)).sum := by
          simp only [hcount]
      _ = (((records.map (fun r => r.userId)).dedup).map
            (fun g => (records.map (fun r => r.userId)).count g)).sum :=
          ((List.perm_insertionSort _ _).map _).sum_eq
      _ = (records.map (fun r => r.userId)).length :=
          List.sum_map_count_dedup_eq_length _
      _ = records.length := by simp
  · intro g
    rw [groupIds, List.mem_insertionSort, List.mem_dedup]

/-- A `filterMap` drops nothing when the function is `some` on every
element. -/
theorem length_filterMap_all_isSome {α β : Type _} (f : α → Option β) :
    ∀ l : List α, (∀ a ∈ l, (f a).isSome) → (l.filterMap f).length = l.length
  | [], _ => rfl
  | a :: l, h => by
    obtain ⟨b, hb⟩ := Option.isSome_iff_exists.1 (h a (List.mem_cons_self a l))
    rw [List.filterMap_cons, hb]
    simpa using length_filterMap_all_isSome f l
      (fun x hx => h x (List.mem_cons_of_mem a hx))

/-- C4: each aggregate row carries the group cardinality as `count`, the
arithmetic mean of the group's title lengths rounded half-to-even at two
decimal places (numpy's fixed rounding rule), and the sum of the group's
word counts; on the spec's example input the breakdown is exactly
group 1 ↦ (count 2, avg 5/2, total 5) and group 2 ↦ (count 1, avg 1,
total 1). -/
theorem C4_aggregate_rows :
    (∀ (records : List DerivedRecord) (g : Int),
      (aggRow records g).idCount = (groupRecords records g).length ∧
      (groupRecords records g ≠ [] →
        (∀ r ∈ groupRecords records g, r.title_length.isSome) →
        (aggRow records g).title_length_mean
          = some (round2
              (((((groupRecords records g).filterMap (fun r => r.title_length)
                    : List Nat)).map
                  (fun n => (n : ℚ))).sum / ((groupRecords records g).length : ℚ)))) ∧
      (aggRow records g).body_word_count_sum
        = ((groupRecords records g).filterMap (fun r => r.body_word_count)).sum) ∧
    user_breakdown exampleDerived
      = [(1, { idCount := 2, title_length_mean := some ((5 : ℚ)/2),
               body_word_count_sum := 5 }),
         (2, { idCount := 1, title_length_mean := some ((1 : ℚ)),
               body_word_count_sum := 1 })] := by
  constructor
  · intro records g
    refine ⟨rfl, ?_, rfl⟩
    intro hne hsome
    have hlen : ((groupRecords records g).filterMap
          (fun r => r.title_length)).length
        = (groupRecords records g).length :=
      length_filterMap_all_isSome _ _ hsome
    have hnz : ¬ ((groupRecords records g).filterMap
          (fun r => r.title_length)).length = 0 := by
      rw [hlen]
      simpa [List.length_eq_zero] using hne
    simp only [aggRow]
    rw [if_neg hnz, hlen]
  · have hg : groupIds exampleDerived = [1, 2] := by decide
    have h1 : (groupRecords exampleDerived 1).filterMap
        (fun r => r.title_length) = [2, 3] := by decide
    have h2 : (groupRecords exampleDerived 2).filterMap
        (fun r => r.title_length) = [1] := by decide
    rw [user_breakdown, hg]
    simp only [List.map_cons, List.map_nil]
    refine congrArg₂ _ (congrArg _ ?_) (congrArg₂ _ (congrArg _ ?_) rfl)
    · show aggRow exampleDerived 1 = _
      rw [aggRow, h1]
      norm_num [round2, roundHalfEven]
      exact ⟨by decide, by decide⟩
    · show aggRow exampleDerived 2 = _
      rw [aggRow, h2]
      norm_num [round2, roundHalfEven]
      exact ⟨by decide, by decide⟩

/-- C4 witness: the per-row aggregation rules evaluated on group 1 of the
example records. -/
theorem C4_aggregate_rows_witness :
    (aggRow exampleDerived 1).idCount = (groupRecords exampleDerived 1).length ∧
    (aggRow exampleDerived 1).title_length_mean
      = some (round2
          (((((groupRecords exampleDerived 1).filterMap (fun r => r.title_length)
                : List Nat)).map
              (fun n => (n : ℚ))).sum / ((groupRecords exampleDerived 1).length : ℚ))) ∧
    (aggRow exampleDerived 1).body_word_count_sum
      = ((groupRecords exampleDerived 1).filterMap (fun r => r.body_word_count)).sum := by
  obtain ⟨h1, h2, h3⟩ := C4_aggregate_rows.1 exampleDerived 1
  exact ⟨h1, h2 (by decide) (by decide), h3⟩

/-- C5: the report summary is computed directly from the derived records,
not from the rounded breakdown: `total_records` is the list length,
`unique_users` equals the number of breakdown groups, `avg_title_length`
is the full-precision unrounded mean of the title lengths, `total_words`
is the summed word counts, and the extrema bound every record's title
length. -/
theorem C5_summary_from_records (records : List DerivedRecord)
    (hne : records ≠ [])
    (hall : ∀ r ∈ records, r.title_length.isSome ∧ r.body_word_count.isSome) :
    ∃ a, perform_analysis records = Except.ok a ∧
      a.data_summary.total_records = records.length ∧
      a.data_summary.unique_users = (user_breakdown records).length ∧
      a.data_summary.avg_title_length
        = (((records.filterMap (fun r => r.title_length) : List Nat)).map
            (fun n => (n : ℚ))).sum / (records.length : ℚ) ∧
      a.data_summary.total_words
        = ((records.filterMap (fun r => r.body_word_count) : List Nat)).sum ∧
      a.user_breakdown = user_breakdown records ∧
      ∀ r ∈ records, ∀ n, r.title_length = some n →
        a.data_summary.min_title_length ≤ n ∧
        n ≤ a.data_summary.max_title_length := by
  have hlen : ((records.filterMap (fun r => r.title_length) : List Nat)).length
      = records.length :=
    length_filterMap_all_isSome _ _ (fun r hr => (hall r hr).1)
  have htne : ((records.filterMap (fun r => r.title_length) : List Nat)) ≠ [] := by
    intro h
    exact hne (List.length_eq_zero.1 (by rw [← hlen, h]; rfl))
  obtain ⟨t, ts, hts⟩ :=
    List.exists_cons_of_ne_nil htne
  have hmn : ∃ mn, ((records.filterMap (fun r => r.title_length)
      : List Nat)).min? = some mn := by
    rw [hts]; exact ⟨_, List.min?_cons⟩
  have hmx : ∃ mx, ((records.filterMap (fun r => r.title_length)
      : List Nat)).max? = some mx := by
    rw [hts]; exact ⟨_, List.max?_cons⟩
  obtain ⟨mn, hmn⟩ := hmn
  obtain ⟨mx, hmx⟩ := hmx
  have hpa : perform_analysis records = Except.ok
      { data_summary :=
          { total_records := records.length
            unique_users := (records.map (fun r => r.userId)).dedup.length
            avg_title_length :=
              (((records.filterMap (fun r => r.title_length) : List Nat)).map
                (fun n => (n : ℚ))).sum
                / (((records.filterMap (fun r => r.title_length)
                      : List Nat)).length : ℚ)
            total_words :=
              ((records.filterMap (fun r => r.body_word_count) : List Nat)).sum
            min_title_length := mn
            max_title_length := mx }
        user_breakdown := user_breakdown records } := by
    simp only [perform_analysis]
    rw [hmn, hmx]
  refine ⟨_, hpa, rfl, ?_, ?_, rfl, rfl, ?_⟩
  · show (records.map (fun r => r.userId)).dedup.length = _
    rw [user_breakdown, List.length_map, groupIds,
        (List.perm_insertionSort _ _).length_eq]
  · show _ / _ = _
    rw [hlen]
  · intro r hr n hn
    have hmem : n ∈ ((records.filterMap (fun r => r.title_length)
        : List Nat)) :=
      List.mem_filterMap.2 ⟨r, hr, hn⟩
    constructor
    · exact (List.min?_eq_some_iff'.1 hmn).2 n hmem
    · exact (List.max?_eq_some_iff'.1 hmx).2 n hmem

/-- C5 witness: the summary properties evaluated on the example records. -/
theorem C5_summary_witness :
    ∃ a, perform_analysis exampleDerived = Except.ok a ∧
      a.data_summary.total_records = exampleDerived.length ∧
      a.data_summary.unique_users = (user_breakdown exampleDerived).length ∧
      a.data_summary.avg_title_length
        = (((exampleDerived.filterMap (fun r => r.title_length) : List Nat)).map
            (fun n => (n : ℚ))).sum / (exampleDerived.length : ℚ) ∧
      a.data_summary.total_words
        = ((exampleDerived.filterMap (fun r => r.body_word_count) : List Nat)).sum ∧
      a.user_breakdown = user_breakdown exampleDerived ∧
      ∀ r ∈ exampleDerived, ∀ n, r.title_length = some n →
        a.data_summary.min_title_length ≤ n ∧
        n ≤ a.data_summary.max_title_length :=
  C5_summary_from_records exampleDerived (by decide) (by decide)

/-- An unescape starting at a non-quote character keeps it and continues. -/
theorem unescape_cons_of_ne (c : Char) (l : List Char) (h : ¬ c = '"') :
    unescapeQuotes (c :: l) = c :: unescapeQuotes l := by
  cases l with
  | nil => rfl
  | cons d cs => simp [unescapeQuotes, h]

/-- Collapsing doubled quotes undoes doubling them. -/
theorem unescape_escape (l : List Char) :
    unescapeQuotes (escapeQuotes l) = l := by
  induction l with
  | nil => rfl
  | cons c cs ih =>
    by_cases h : c = '"'
    · subst h
      simp [escapeQuotes, unescapeQuotes, ih]
    · simp only [escapeQuotes, if_neg h]
      rw [unescape_cons_of_ne c _ h, ih]

/-- The minimal-quoting CSV field rendering is lossless: reading a
rendered field back yields the original value, for every field value
(in particular those embedding delimiters, quotes or newlines). -/
theorem parse_render_csvField (s : String) :
    parseCsvField (renderCsvField s) = s := by
  by_cases h : csvNeedsQuoting s
  · rw [renderCsvField, if_pos h, parseCsvField]
    have hcond : (String.mk ('"' :: (escapeQuotes s.data ++ ['"']))).data.head?
        = some '"' := rfl
    rw [if_pos hcond]
    show String.mk (unescapeQuotes ((escapeQuotes s.data ++ ['"']).dropLast)) = s
    rw [List.dropLast_concat, unescape_escape]
  · rw [renderCsvField, if_neg h]
    cases hsd : s.data with
    | nil => rw [parseCsvField]; simp [hsd]
    | cons c cs =>
      have hc : ¬ c = '"' := by
        intro hq
        apply h
        simp only [csvNeedsQuoting, hsd]
        simp [hq]
      rw [parseCsvField, if_neg (by simp [hsd, hc])]

/-- C9: the tabular artifact is a header row in the column order
`id, title, body, userId, processed_at, title_length, body_word_count`
(the source-level names of the spec's `[id, title, body, groupId,
processedAt, titleLength, wordCount]`), followed by exactly one row per
derived record in order, with the csv module's standard minimal quoting,
which renders every field value losslessly. -/
theorem C9_csv_layout :
    (∀ records : List DerivedRecord,
      to_csv records
          = csvLine csvColumns :: records.map (fun r => csvLine (csvRecordFields r)) ∧
      (to_csv records).length = records.length + 1 ∧
      (to_csv records).head? = some (csvLine csvColumns)) ∧
    csvLine csvColumns
      = "id,title,body,userId,processed_at,title_length,body_word_count" ∧
    ∀ s, parseCsvField (renderCsvField s) = s :=
  ⟨fun records => ⟨rfl, by simp [to_csv], rfl⟩, rfl, parse_render_csvField⟩

/-- The serialized form of the summary sub-document. -/
def jsonOfSummary (s : DataSummary) : Json :=
  .obj [(("total_records"), .intNum (s.total_records : Int)),
        (("unique_users"), .intNum (s.unique_users : Int)),
        (("avg_title_length"), .floatNum s.avg_title_length),
        (("total_words"), .intNum (s.total_words : Int)),
        (("min_title_length"), .intNum (s.min_title_length : Int)),
        (("max_title_length"), .intNum (s.max_title_length : Int))]

/-- Serializing the summary dict always succeeds, with string keys. -/
theorem dumps_pyOfSummary (s : DataSummary) :
    dumps (pyOfSummary s) = some (jsonOfSummary s) := rfl

/-- Loading the summary document restores the summary dict exactly. -/
theorem loads_jsonOfSummary (s : DataSummary) :
    loads (jsonOfSummary s) = pyOfSummary s := rfl

/-- The serialized form of one breakdown row whose mean is the float
`q`. -/
def jsonOfAggRow (row : AggRow) (q : ℚ) : Json :=
  .obj [(("id"), .intNum (row.idCount : Int)),
        (("title_length"), .floatNum q),
        (("body_word_count"), .intNum (row.body_word_count_sum : Int))]

/-- A breakdown row with a non-`NaN` mean serializes and loads back to
itself (its keys are already strings). -/
theorem dumps_pyOfAggRow (row : AggRow) (q : ℚ)
    (h : row.title_length_mean = some q) :
    dumps (pyOfAggRow row) = some (jsonOfAggRow row q) ∧
    loads (jsonOfAggRow row q) = pyOfAggRow row := by
  constructor
  · simp [pyOfAggRow, h, dumps, dumpsObj, jsonKey, jsonOfAggRow]
  · simp [pyOfAggRow, h, loads, loadsObj, jsonOfAggRow]

/-- `dumpsObj` on a cons whose key, value and tail all serialize. -/
theorem dumpsObj_cons_of {k v : PyValue} {es : List (PyValue × PyValue)}
    {ks : String} {jv : Json} {ms : List (String × Json)}
    (hk : jsonKey k = some ks) (hv : dumps v = some jv)
    (hes : dumpsObj es = some ms) :
    dumpsObj ((k, v) :: es) = some ((ks, jv) :: ms) := by
  simp [dumpsObj, hk, hv, hes]

/-- Serializing the breakdown dict coerces every integer group key to its
decimal string; loading the result therefore yields the rows unchanged
under string keys. -/
theorem dumps_breakdown (l : List (Int × AggRow))
    (h : ∀ e ∈ l, e.2.title_length_mean.isSome) :
    ∃ ms, dumpsObj (l.map (fun e => ((.int e.1 : PyValue), pyOfAggRow e.2)))
        = some ms ∧
      loadsObj ms
        = l.map (fun e => ((.str (toString e.1) : PyValue), pyOfAggRow e.2)) := by
  induction l with
  | nil => exact ⟨[], rfl, rfl⟩
  | cons e l ih =>
    obtain ⟨q, hq⟩ := Option.isSome_iff_exists.1 (h e (List.mem_cons_self e l))
    obtain ⟨ms, hms, hlms⟩ := ih (fun x hx => h x (List.mem_cons_of_mem e hx))
    obtain ⟨hd, hl⟩ := dumps_pyOfAggRow e.2 q hq
    refine ⟨(toString e.1, jsonOfAggRow e.2 q) :: ms, ?_, ?_⟩
    · simp [dumpsObj, jsonKey, hd, hms]
    · simp [loadsObj, hl, hlms]

/-- C8 (amended): serializing the in-memory analysis succeeds and
deserializing the written document reproduces the summary values and the
breakdown row values exactly, but every breakdown key comes back as the
decimal string form of the integer group id — JSON object keys are
strings — so the deserialized breakdown mapping equals the in-memory one
only up to that key conversion. (Stated for breakdowns with non-`NaN`
means; a `NaN` mean would additionally break the round trip because
`nan != nan` in Python.) -/
theorem C8_round_trip (a : Analysis)
    (h : ∀ e ∈ a.user_breakdown, e.2.title_length_mean.isSome) :
    ∃ j, dumps (pyOfAnalysis a) = some j ∧ loads j = pyOfAnalysisLoaded a := by
  obtain ⟨ms, hms, hlms⟩ := dumps_breakdown a.user_breakdown h
  refine ⟨.obj [(("data_summary"), jsonOfSummary a.data_summary),
                (("user_breakdown"), .obj ms)], ?_, ?_⟩
  · have hB : dumps (.dict (a.user_breakdown.map
        (fun e => ((.int e.1 : PyValue), pyOfAggRow e.2))))
        = some (.obj ms) := by
      show (dumpsObj (a.user_breakdown.map
          (fun e => ((.int e.1 : PyValue), pyOfAggRow e.2)))).map Json.obj = _
      rw [hms]
      rfl
    show (dumpsObj
        [((.str ("data_summary") : PyValue), pyOfSummary a.data_summary),
         ((.str ("user_breakdown") : PyValue),
           .dict (a.user_breakdown.map
             (fun e => ((.int e.1 : PyValue), pyOfAggRow e.2))))]).map
        Json.obj = _
    rw [dumpsObj_cons_of
          (show jsonKey (.str ("data_summary")) = some ("data_summary") from rfl)
          (dumps_pyOfSummary a.data_summary)
          (dumpsObj_cons_of
            (show jsonKey (.str ("user_breakdown")) = some ("user_breakdown") from rfl)
            hB
            (show dumpsObj [] = some [] from rfl))]
    rfl
  · show PyValue.dict
        [((.str ("data_summary") : PyValue), loads (jsonOfSummary a.data_summary)),
         ((.str ("user_breakdown") : PyValue), .dict (loadsObj ms))] = _
    rw [loads_jsonOfSummary, hlms]
    rfl

/-- The analysis of the spec's example scenario: its summary and the two
rounded breakdown rows. -/
def exampleAnalysis : Analysis :=
  { data_summary :=
      { total_records := 3
        unique_users := 2
        avg_title_length := 2
        total_words := 6
        min_title_length := 1
        max_title_length := 3 }
    user_breakdown :=
      [(1, { idCount := 2, title_length_mean := some ((5 : ℚ)/2),
             body_word_count_sum := 5 }),
       (2, { idCount := 1, title_length_mean := some ((1 : ℚ)),
             body_word_count_sum := 1 })] }

/-- C8 witness: the round trip evaluated on the example analysis. -/
theorem C8_round_trip_witness :
    ∃ j, dumps (pyOfAnalysis exampleAnalysis) = some j ∧
      loads j = pyOfAnalysisLoaded exampleAnalysis :=
  C8_round_trip exampleAnalysis (by decide)

/-- C8 counterexample: on the example analysis the document serializes
fine, but deserializing it does not give back the in-memory analysis
dict: the breakdown keys return as the strings of the group ids, not the
original integers, so the mapping (keys included) differs. -/
theorem C8_counterexample :
    (dumps (pyOfAnalysis exampleAnalysis)).isSome = true ∧
    (dumps (pyOfAnalysis exampleAnalysis)).map loads
      ≠ some (pyOfAnalysis exampleAnalysis) := by
  constructor
  · rfl
  · intro hcontra
    simp only [exampleAnalysis, pyOfAnalysis, pyOfSummary, pyOfAggRow,
      List.map_cons, List.map_nil, dumps, dumpsObj, jsonKey,
      Option.bind, Option.map, loads, loadsObj] at hcontra
    simp [loads, loadsObj, loadsArr] at hcontra
